import Mathlib

/-!
Verification development for the "zeus" repair-agent backend.

This file gives a shallow embedding, in Lean 4, of the pure decision logic of
the agent pipeline found under `backend/agent/app/`:

* `commit_push.py` — the Publisher node (protected-branch guard, batch commit,
  push-failure handling),
* `builder.py` — the routing predicates `should_retry` and `should_monitor_ci`,
* `scorer.py` — `_public_ci_status`, `_compute_score` and the `results.json`
  construction,
* `ast_analyzer.py` — the prioritized regex cascade `_classify_bug_type`,
* `fix_generator.py` — the per-failure fix loop and the `requirements.txt`
  branch of `_fix_import`,
* `test_runner.py` — the `_run_cmd` outcome handling.

Conventions used throughout:

* Python strings are Lean `String`s; where character-level reasoning is
  needed we work on `List Char` (`String.data`).  Case folding uses
  `Char.toLower`, which agrees with Python `str.lower` on ASCII; all string
  constants involved in the claims are ASCII.
* Python floats are modelled as rationals (`ℚ`).  Python's `round(x, 1)`
  is modelled as rounding to the nearest tenth (`round1`); the tie-breaking
  convention cannot differ on the values reachable here.
* External effects (git, subprocesses, the filesystem, the LLM service) are
  modelled as explicit outcome/environment values consumed by the embedded
  functions; a function that never consults the outcome performed no effect.
* Partial state dictionaries returned by nodes are modelled as result
  structures; a key a node does not return is represented by the unchanged
  input value (LangGraph merge semantics) or an `Option` set to `none`.
-/

namespace Zeus

/-- Python `s[:n]` on strings. -/
def pyTake (n : Nat) (s : String) : String :=
  (s.data.take n).asString

/-- Case-folded character list of a string (Python `s.lower()`, ASCII). -/
def lowerChars (s : String) : List Char :=
  s.data.map Char.toLower

/-- Python `s.lower()` as a string (ASCII case folding). -/
def strLower (s : String) : String :=
  (s.data.map Char.toLower).asString

/-- Record `FixRecord` from `app/graph/state.py`.  `bug_type` and `status` are the
string literals used by the Python `Literal` types. -/
structure FixRecord where
  file_path : String
  bug_type : String
  line_number : Nat
  description : String
  fix_description : String
  original_code : String
  fixed_code : String
  status : String
  commit_sha : Option String
  commit_message : String
  confidence : ℚ
  model_used : String
deriving DecidableEq, Repr

/-- Record `CiRun` from `app/graph/state.py`. -/
structure CiRun where
  iteration : Nat
  status : String
  github_run_id : Option Int
  failures_before : Nat
  failures_after : Nat
  regression : Bool
  rollback_triggered : Bool
  rollback_commit_sha : Option String
  duration_secs : ℚ
  timestamp : String
deriving DecidableEq, Repr

/-- Constant `_PROTECTED_BRANCHES` from `commit_push.py`. -/
def PROTECTED_BRANCHES : List String := ["main", "master", "develop", "release"]

/-- The filter `commit_push` applies to pick the batch to commit:
`f.status == "applied" and not f.commit_sha`. -/
def batchPending (f : FixRecord) : Bool :=
  f.status == "applied" && f.commit_sha == none

/-- Outcome of the git interaction performed by `_do_commit` in
`commit_push.py`, seen from the caller.  `success` is a completed commit and
push returning the short SHA; `rejected` is a push whose flags contained
REJECTED/REMOTE_REJECTED/ERROR/REMOTE_FAILURE (raised as
`RuntimeError("Push rejected: <summary>")`); `gitError` is any other
exception raised inside `_do_commit`, carrying `str(exc)`. -/
inductive PushOutcome where
  | success (sha : String)
  | rejected (summary : String)
  | gitError (msg : String)
deriving DecidableEq, Repr

/-- The partial state returned by the `commit_push` node.  `fixes` is the
(possibly mutated) fix list after the node; `attemptedGit` records whether
`_do_commit` (stage + commit + push) was invoked at all. -/
structure CommitPushResult where
  fixes : List FixRecord
  status : Option String
  quarantine_reason : Option String
  error_message : Option String
  pushed_this_iteration : Bool
  commits_added : Nat
  attemptedGit : Bool
deriving DecidableEq, Repr

/-- The exception branch of `commit_push`: every fix in the batch is flipped
to `"failed"` and the error message is recorded. -/
def commitPushFail (fixes : List FixRecord) (err : String) : CommitPushResult :=
  { fixes := fixes.map fun f =>
      if batchPending f then { f with status := "failed" } else f
    status := none
    quarantine_reason := none
    error_message := some err
    pushed_this_iteration := false
    commits_added := 0
    attemptedGit := true }

/-- Node `commit_push` from `commit_push.py` (decision logic; git effects are the
`outcome` argument, consulted only when a commit is actually attempted). -/
def commitPush (branch : String) (fixes : List FixRecord)
    (outcome : PushOutcome) : CommitPushResult :=
  if PROTECTED_BRANCHES.contains (strLower branch) then
    let error := "BLOCKED: Refusing to push to protected branch '" ++ branch ++ "'"
    { fixes := fixes
      status := some "quarantined"
      quarantine_reason := some error
      error_message := some error
      pushed_this_iteration := false
      commits_added := 0
      attemptedGit := false }
  else if (fixes.filter batchPending).isEmpty then
    { fixes := fixes
      status := none
      quarantine_reason := none
      error_message := none
      pushed_this_iteration := false
      commits_added := 0
      attemptedGit := false }
  else
    match outcome with
    | .success sha =>
        { fixes := fixes.map fun f =>
            if batchPending f then
              { f with
                  commit_sha := some sha
                  commit_message :=
                    "[AI-AGENT] Fix " ++ f.bug_type ++ ": " ++ pyTake 80 f.description }
            else f
          status := none
          quarantine_reason := none
          error_message := none
          pushed_this_iteration := true
          commits_added := 1
          attemptedGit := true }
    | .rejected summary =>
        commitPushFail fixes ("Git commit/push failed: Push rejected: " ++ summary)
    | .gitError msg =>
        commitPushFail fixes ("Git commit/push failed: " ++ msg)

/-- Python truthiness of an optional string (`None` and `""` are falsy). -/
def pyTruthy : Option String → Bool
  | none => false
  | some s => !(s == "")

/-- Python's substring test `needle in hay`, on character lists. -/
def hasSubstr (needle hay : List Char) : Bool :=
  hay.tails.any fun t => needle.isPrefixOf t

/-- Predicate `should_monitor_ci` from `builder.py`.  `error` is
`state.get("error_message", "")`, `pushed` is
`state.get("pushed_this_iteration", False)`. -/
def shouldMonitorCi (error : String) (pushed : Bool) : String :=
  if !(error == "") && hasSubstr "commit/push failed".data (lowerChars error) then
    "scorer"
  else if !pushed then
    "scorer"
  else
    "ci_monitor"

/-- Predicate `should_retry` from `builder.py`. -/
def shouldRetry (ciStatus : String) (testExit : Int) (iteration maxIter : Nat)
    (quarantine : Option String) (workflowCreated : Bool) : String :=
  if ciStatus == "no_ci" && !workflowCreated then "create_workflow"
  else if ciStatus == "passed" && testExit == 0 then "scorer"
  else if pyTruthy quarantine then "scorer"
  else if iteration ≥ maxIter then "scorer"
  else "retry"

/-- Modelled from the spec: the scoring constants live in `app/config.py`,
which is not part of the provided sources; §4.8 of the spec fixes them as
base 100, speed bonus 10 below 300 seconds, penalty 2 per commit beyond 20
free commits. -/
def SCORE_BASE : ℚ := 100

/-- Modelled from the spec: see `SCORE_BASE`. -/
def SCORE_SPEED_BONUS : ℚ := 10

/-- Modelled from the spec: see `SCORE_BASE`. -/
def SCORE_SPEED_THRESHOLD_SECS : ℚ := 300

/-- Modelled from the spec: see `SCORE_BASE`. -/
def SCORE_EFFICIENCY_PENALTY_PER_COMMIT : ℤ := 2

/-- Modelled from the spec: see `SCORE_BASE`. -/
def SCORE_EFFICIENCY_FREE_COMMITS : ℤ := 20

/-- Python `round(x, 1)`: round to the nearest tenth. -/
def round1 (x : ℚ) : ℚ :=
  ((round (10 * x) : ℤ) : ℚ) / 10

/-- Record `ScoreBreakdown` from `app/graph/state.py` (floats as rationals). -/
structure ScoreBreakdown where
  base : ℚ
  speed_bonus : ℚ
  efficiency_penalty : ℚ
  total : ℚ
deriving DecidableEq, Repr

/-- Function `_compute_score` from `scorer.py`.  The `let` rebindings mirror the
Python reassignments of `base` and `speed_bonus`. -/
def computeScore (totalTimeSecs : ℚ) (totalCommits : Nat)
    (totalFailures totalFixesApplied : Nat) (testsPassed : Bool) : ScoreBreakdown :=
  let base : ℚ := SCORE_BASE
  let speedBonus : ℚ :=
    if 0 < totalFixesApplied ∧ totalTimeSecs < SCORE_SPEED_THRESHOLD_SECS then
      SCORE_SPEED_BONUS
    else 0
  let efficiencyPenalty : ℚ :=
    ((SCORE_EFFICIENCY_PENALTY_PER_COMMIT *
        max 0 ((totalCommits : ℤ) - SCORE_EFFICIENCY_FREE_COMMITS) : ℤ) : ℚ)
  let base : ℚ :=
    if 0 < totalFailures then
      base * ((totalFixesApplied : ℚ) / (totalFailures : ℚ))
    else base
  let base : ℚ := if testsPassed then SCORE_BASE else base
  let speedBonus : ℚ :=
    if testsPassed then
      (if totalTimeSecs < SCORE_SPEED_THRESHOLD_SECS then SCORE_SPEED_BONUS else 0)
    else speedBonus
  let total : ℚ := base + speedBonus - efficiencyPenalty
  { base := round1 base
    speed_bonus := speedBonus
    efficiency_penalty := efficiencyPenalty
    total := max 0 (round1 total) }

/-- Function `_public_ci_status` from `scorer.py`. -/
def publicCiStatus (status : String) : String :=
  if status == "no_ci" then "failed" else status

/-- One entry of `results["fixes"]` in `scorer.py`. -/
structure FixRow where
  file : String
  bug_type : String
  line_number : Nat
  commit_message : String
  status : String
deriving DecidableEq, Repr

/-- One entry of `results["ci_log"]` in `scorer.py`. -/
structure CiLogRow where
  iteration : Nat
  status : String
  timestamp : String
  regression : Bool
deriving DecidableEq, Repr

/-- The scoring-relevant part of the `results.json` artifact built by the
`scorer` node. -/
structure ScorerOutput where
  final_status : String
  total_failures : Nat
  total_fixes : Nat
  score : ScoreBreakdown
  fixes : List FixRow
  ci_log : List CiLogRow
deriving DecidableEq, Repr

/-- The pure computation of the `scorer` node (`scorer.py`): final status,
failure/fix counts, score, and the `fixes`/`ci_log` sections of
`results.json`.  I/O (journal writes, PDF, events) is omitted; it does not
alter these values. -/
def scorerResults (totalTimeSecs : ℚ) (totalCommits : Nat)
    (fixes : List FixRecord) (ciRuns : List CiRun)
    (testExitCode : Int) (currentCi : String)
    (quarantineReason : Option String) : ScorerOutput :=
  let finalStatus :=
    if currentCi == "passed" || testExitCode == 0 then "PASSED"
    else if pyTruthy quarantineReason then "QUARANTINED"
    else "FAILED"
  let totalFailures := (fixes.filter fun f => !(f.status == "rolled_back")).length
  let totalFixesApplied := (fixes.filter fun f => f.status == "applied").length
  let testsPassed := finalStatus == "PASSED"
  let score := computeScore totalTimeSecs totalCommits totalFailures totalFixesApplied testsPassed
  { final_status := finalStatus
    total_failures := totalFailures
    total_fixes := totalFixesApplied
    score := score
    fixes := fixes.map fun f =>
      { file := f.file_path
        bug_type := f.bug_type
        line_number := f.line_number
        commit_message :=
          if f.commit_message == "" then "[AI-AGENT] Fix " ++ f.bug_type
          else f.commit_message
        status := if f.status == "applied" then "FIXED" else "FAILED" }
    ci_log := ciRuns.map fun cr =>
      { iteration := cr.iteration
        status := publicCiStatus cr.status
        timestamp := cr.timestamp
        regression := cr.regression } }

/-- Outcome of the subprocess run inside `_run_cmd` in `test_runner.py`:
normal completion (with the decoded combined output and the process return
code, `None` while unset), a `TimeoutError` from the 120-second budget, or a
`FileNotFoundError` because the command binary is missing. -/
inductive CmdOutcome where
  | completed (output : String) (returncode : Option Int)
  | timedOut
  | binaryMissing
deriving DecidableEq, Repr

/-- Python `proc.returncode or 0` (both `None` and `0` yield `0`). -/
def pyOrZero : Option Int → Int
  | none => 0
  | some c => if c == 0 then 0 else c

/-- Function `_run_cmd` from `test_runner.py`: all three outcomes are returned as an
`(output, exit_code)` pair, never raised. -/
def runCmd (cmd : List String) (outcome : CmdOutcome) : String × Int :=
  match outcome with
  | .completed output rc => (output, pyOrZero rc)
  | .timedOut => ("ERROR: Test execution timed out after 120s", 1)
  | .binaryMissing => ("ERROR: Test command not found — " ++ cmd.headD "", 127)

/-! ### The Analyzer's classification cascade (`ast_analyzer.py`)

`_BUG_PATTERNS` is a prioritized list of case-insensitive regexes.  Each
regex is an alternation of simple sequences built from literals, `\d+`,
`\d` (for `\d{3}`), `.*`/`.?` (which do not cross newlines), `\b` and `\s`.
We embed that fragment directly: a pattern is a list of alternatives, each a
list of tokens, matched against the case-folded character list.  Matching is
fueled to keep the function structurally recursive; the fuel supplied by
`regexSearch` exceeds the longest possible derivation, so it is never
exhausted. -/

/-- Word character for `\b` (Python `\w` over ASCII input). -/
def isWordChar (c : Char) : Bool :=
  c.isAlphanum || c == '_'

/-- Whitespace for `\s` (ASCII range; the inputs here are ASCII). -/
def isSpaceChar (c : Char) : Bool :=
  c == ' ' || c == '\t' || c == '\n' || c == '\r' || c == '\x0b' || c == '\x0c'

/-- Tokens of the regex fragment used by `_BUG_PATTERNS`. -/
inductive RTok where
  | lit (cs : List Char)
  | digit1
  | digitsPlus
  | gap
  | optAny
  | wordBound
  | spaceOne
deriving DecidableEq, Repr

/-- Word-boundary test (`\b`) between a previous character and the next. -/
def wordBoundAt (prev : Option Char) (next : Option Char) : Bool :=
  ((prev.map isWordChar).getD false) != ((next.map isWordChar).getD false)

/-- Match a token sequence at the start of `s`, with `prev` the character
immediately before `s` (for `\b`).  `fuel` only forces termination. -/
def matchToks (fuel : Nat) (toks : List RTok) (prev : Option Char)
    (s : List Char) : Bool :=
  match fuel, toks with
  | 0, _ => false
  | _ + 1, [] => true
  | fuel + 1, tok :: ps =>
    match tok with
    | .lit cs =>
        cs.isPrefixOf s &&
          matchToks fuel ps (if cs.isEmpty then prev else cs.getLast?) (s.drop cs.length)
    | .digit1 =>
        match s with
        | [] => false
        | c :: r => c.isDigit && matchToks fuel ps (some c) r
    | .digitsPlus =>
        match s with
        | [] => false
        | c :: r =>
            c.isDigit &&
              (matchToks fuel ps (some c) r || matchToks fuel (RTok.digitsPlus :: ps) (some c) r)
    | .gap =>
        matchToks fuel ps prev s ||
          (match s with
           | [] => false
           | c :: r => !(c == '\n') && matchToks fuel (RTok.gap :: ps) (some c) r)
    | .optAny =>
        matchToks fuel ps prev s ||
          (match s with
           | [] => false
           | c :: r => !(c == '\n') && matchToks fuel ps (some c) r)
    | .wordBound =>
        wordBoundAt prev s.head? && matchToks fuel ps prev s
    | .spaceOne =>
        match s with
        | [] => false
        | c :: r => isSpaceChar c && matchToks fuel ps (some c) r

/-- Try every alternative at this position. -/
def matchHere (alts : List (List RTok)) (prev : Option Char) (s : List Char) : Bool :=
  alts.any fun a => matchToks (s.length + 64) a prev s

/-- Search like `re.search`: try every start position. -/
def searchFrom (alts : List (List RTok)) (prev : Option Char) : List Char → Bool
  | [] => matchHere alts prev []
  | c :: r => matchHere alts prev (c :: r) || searchFrom alts (some c) r

/-- Case-insensitive search of an alternation over a message. -/
def regexSearch (alts : List (List RTok)) (msg : String) : Bool :=
  searchFrom alts none (lowerChars msg)

/-- Shorthand for a literal token (stored case-folded). -/
def rlit (s : String) : RTok :=
  RTok.lit s.data

/-- The SYNTAX pattern of `_BUG_PATTERNS`, alternative by alternative. -/
def syntaxPat : List (List RTok) :=
  [ [rlit "syntaxerror"]
  , [rlit "indentationerror"]
  , [rlit "taberror"]
  , [rlit "error cs", RTok.digitsPlus]
  , [rlit "error ts", RTok.digitsPlus]
  , [rlit "parseerror"]
  , [rlit "parse error"]
  , [rlit "expected", RTok.gap, RTok.wordBound, rlit "token", RTok.wordBound]
  , [rlit "unexpected token"]
  , [rlit "syntax error"]
  , [rlit "syntaxexception"]
  , [rlit "error[e", RTok.digitsPlus, rlit "]", RTok.gap, rlit "expected"]
  , [rlit ".go:", RTok.digitsPlus, rlit ":", RTok.digitsPlus, rlit ":", RTok.gap, rlit "expected"]
  , [rlit "error:", RTok.gap, rlit "expected", RTok.gap, rlit ";"]
  , [rlit "missing semicolon"] ]

/-- The INDENTATION pattern of `_BUG_PATTERNS`. -/
def indentationPat : List (List RTok) :=
  [ [rlit "indentationerror"]
  , [rlit "unexpected indent"]
  , [rlit "expected an indented block"]
  , [rlit "inconsistent use of tabs and spaces"] ]

/-- The IMPORT pattern of `_BUG_PATTERNS`. -/
def importPat : List (List RTok) :=
  [ [rlit "importerror"]
  , [rlit "modulenotfounderror"]
  , [rlit "no module named"]
  , [rlit "cannot find module"]
  , [rlit "cannot find module"]
  , [rlit "unresolved import"]
  , [rlit "cannot find type"]
  , [rlit "missing", RTok.gap, rlit "reference"]
  , [rlit "cs0246"]
  , [rlit "package ", RTok.gap, rlit " is not in goroot"]
  , [rlit "error[e0432]"]
  , [rlit "error[e0433]"]
  , [rlit "no required module provides"]
  , [rlit "loaderror"]
  , [rlit "require", RTok.gap, rlit "cannot load such file"]
  , [rlit "class ", RTok.gap, rlit " not found"]
  , [rlit "fatal error", RTok.gap, rlit "not found"]
  , [rlit "undefinedfunctionerror"]
  , [rlit "module ", RTok.gap, rlit " is not available"]
  , [rlit "could not resolve"]
  , [rlit "error: package ", RTok.gap, rlit " does not exist"]
  , [rlit "import ", RTok.gap, rlit " could not be resolved"] ]

/-- The TYPE_ERROR pattern of `_BUG_PATTERNS`. -/
def typeErrorPat : List (List RTok) :=
  [ [rlit "typeerror"]
  , [rlit "type", RTok.optAny, rlit "error"]
  , [rlit "expected", RTok.gap, rlit "got"]
  , [rlit "incompatible type"]
  , [rlit "cs0029"]
  , [rlit "cs1503"]
  , [rlit "cannot", RTok.optAny, rlit "convert"]
  , [rlit "error ts", RTok.digitsPlus, rlit ":", RTok.gap, rlit "type ", RTok.gap,
      rlit " is not assignable"]
  , [rlit "type mismatch"]
  , [rlit "expected type"]
  , [rlit "error[e0308]"]
  , [rlit "cannot use ", RTok.gap, rlit " as type"]
  , [rlit "incompatible types"]
  , [rlit "found", RTok.gap, rlit "required"]
  , [rlit "argument ", RTok.gap, rlit " must be of type"] ]

/-- The LINTING pattern of `_BUG_PATTERNS`. -/
def lintingPat : List (List RTok) :=
  [ [rlit "flake8"]
  , [rlit "pylint"]
  , [rlit "eslint"]
  , [rlit "e", RTok.digit1, RTok.digit1, RTok.digit1]
  , [rlit "w", RTok.digit1, RTok.digit1, RTok.digit1]
  , [rlit "trailing whitespace"]
  , [rlit "line too long"]
  , [rlit "cs8600"]
  , [rlit "nullable"]
  , [rlit "clippy"]
  , [rlit "warning[", RTok.gap, rlit "]"]
  , [rlit "golint"]
  , [rlit "staticcheck"]
  , [rlit "go vet"]
  , [rlit "rubocop"]
  , [rlit "standardrb"]
  , [rlit "phpcs"]
  , [rlit "psalm"]
  , [rlit "phpstan"]
  , [rlit "credo"]
  , [rlit "dialyzer"]
  , [rlit "hlint"]
  , [rlit "dart analyze"]
  , [rlit "analysis_options"]
  , [rlit "checkstyle"]
  , [rlit "spotbugs"]
  , [rlit "pmd"]
  , [rlit "ktlint"]
  , [rlit "detekt"] ]

/-- The LOGIC pattern of `_BUG_PATTERNS`. -/
def logicPat : List (List RTok) :=
  [ [rlit "assertionerror"]
  , [rlit "assert", RTok.spaceOne]
  , [rlit "expected", RTok.gap, rlit "received"]
  , [rlit "to equal"]
  , [rlit "tobe"]
  , [rlit "not equal"]
  , [rlit "assert.equal"]
  , [rlit "assert.true"]
  , [rlit "xunit"]
  , [rlit "nunit"]
  , [rlit "mstest"]
  , [rlit "fail", RTok.gap, rlit "test"]
  , [rlit "test", RTok.gap, rlit "failed"]
  , [rlit "panicked at"]
  , [rlit "assertion failed"]
  , [rlit "fail:", RTok.gap, rlit "test"]
  , [rlit "--- fail:"]
  , [rlit "failure/error:"]
  , [rlit "expected", RTok.gap, rlit "to", RTok.wordBound]
  , [rlit "rspec"]
  , [rlit "phpunit", RTok.gap, rlit "failed"]
  , [rlit "failed asserting"]
  , [rlit "assertion", RTok.gap, rlit "failed"]
  , [rlit "exunit"]
  , [rlit "assertequal"]
  , [rlit "assertraises"] ]

/-- Table `_BUG_PATTERNS` from `ast_analyzer.py`, in source order. -/
def BUG_PATTERNS : List (List (List RTok) × String) :=
  [ (syntaxPat, "SYNTAX")
  , (indentationPat, "INDENTATION")
  , (importPat, "IMPORT")
  , (typeErrorPat, "TYPE_ERROR")
  , (lintingPat, "LINTING")
  , (logicPat, "LOGIC") ]

/-- Function `_classify_bug_type` from `ast_analyzer.py`: first matching pattern
wins, `"LOGIC"` is the default. -/
def classifyBugType (errorMsg : String) : String :=
  match BUG_PATTERNS.find? (fun pt => regexSearch pt.1 errorMsg) with
  | some pt => pt.2
  | none => "LOGIC"

/-! ### The Synthesizer's `requirements.txt` rule (`fix_generator.py`)

`_fix_import`, when the target file is `requirements.txt`, normalizes the
existing lines (`ln.strip().split("==")[0].lower()` for each non-blank
line) and appends the missing module if it is not already listed.  We embed
Python's `str.splitlines` / `str.strip` semantics over character lists:
`splitlines` breaks on the Unicode line-boundary set (with `\r\n` as a
single break) and drops a trailing empty segment; `strip` removes Python
whitespace from both ends. -/

/-- Code points Python `str.splitlines` treats as line boundaries. -/
def pyLineBreakCodes : List Nat :=
  [0x0a, 0x0b, 0x0c, 0x0d, 0x1c, 0x1d, 0x1e, 0x85, 0x2028, 0x2029]

/-- Is `c` a Python line boundary? -/
def pyIsLineBreak (c : Char) : Bool :=
  pyLineBreakCodes.contains c.toNat

/-- Code points Python `str.strip` (whitespace) removes. -/
def pySpaceCodes : List Nat :=
  [0x09, 0x0a, 0x0b, 0x0c, 0x0d, 0x1c, 0x1d, 0x1e, 0x1f, 0x20, 0x85, 0xa0,
   0x1680, 0x2000, 0x2001, 0x2002, 0x2003, 0x2004, 0x2005, 0x2006, 0x2007,
   0x2008, 0x2009, 0x200a, 0x2028, 0x2029, 0x202f, 0x205f, 0x3000]

/-- Is `c` Python string whitespace? -/
def pyIsSpace (c : Char) : Bool :=
  pySpaceCodes.contains c.toNat

/-- Worker for `pySplitlines`: `acc` holds the current line reversed.  The
`fuel` argument only keeps the recursion structural (each step consumes at
least one character, so fuel `s.length` is always enough; the fuel-exhausted
branch is unreachable). -/
def pySplitlinesGo (fuel : Nat) (acc : List Char) (s : List Char) :
    List (List Char) :=
  match fuel with
  | 0 => [acc.reverse]
  | fuel + 1 =>
    match s with
    | [] => [acc.reverse]
    | c :: r =>
        if pyIsLineBreak c then
          if c == '\r' && r.head? == some '\n' then
            acc.reverse :: (if r.tail.isEmpty then [] else pySplitlinesGo fuel [] r.tail)
          else
            acc.reverse :: (if r.isEmpty then [] else pySplitlinesGo fuel [] r)
        else
          pySplitlinesGo fuel (c :: acc) r

/-- Python `s.splitlines()` (without `keepends`). -/
def pySplitlines (s : List Char) : List (List Char) :=
  if s.isEmpty then [] else pySplitlinesGo s.length [] s

/-- Python `s.strip()`. -/
def pyStrip (s : List Char) : List Char :=
  ((s.dropWhile pyIsSpace).reverse.dropWhile pyIsSpace).reverse

/-- Python `s.split("==")[0]`: the prefix before the first `==`. -/
def takeUntilEqEq : List Char → List Char
  | [] => []
  | c :: r =>
      if c == '=' && r.head? == some '=' then []
      else c :: takeUntilEqEq r

/-- The normalized set built in `_fix_import`:
`{ln.strip().split("==")[0].lower() for ln in req_lines if ln.strip()}`. -/
def reqNormalized (content : List Char) : List (List Char) :=
  (pySplitlines content).filterMap fun ln =>
    let st := pyStrip ln
    if st.isEmpty then none
    else some ((takeUntilEqEq st).map Char.toLower)

/-- The `requirements.txt` branch of `_fix_import` (`fix_generator.py`,
lines 65–81), as a function of the extracted missing module `M`
(`_extract_missing_module(failure.error_message)`, the same value on every
application to the same failure) and the current file content.  `none` means
"no patch". -/
def fixImportReq (M : List Char) (content : List Char) : Option (List Char) :=
  if M.isEmpty then none
  else if (reqNormalized content).contains (M.map Char.toLower) then none
  else
    let base :=
      if !content.isEmpty && !(content.getLast? == some '\n') then content ++ ['\n']
      else content
    some (base ++ M ++ ['\n'])

/-! ### The Synthesizer's per-failure loop (`fix_generator.py`)

`fix_generator` iterates over the Analyzer's failures and appends
`FixRecord`s to `new_fixes`; the returned state carries
`existing_fixes + new_fixes`.  The external world consulted for one failure
(filesystem lookups, the rule fixers' results, the LLM, the manifest
fallback) is packaged as a `FailureEnv`; the per-iteration environment is a
function of the failure's index, since earlier iterations may change the
working tree. -/

/-- Record `TestFailure` from `app/graph/state.py`. -/
structure TestFailure where
  file_path : String
  test_name : String
  line_number : Nat
  error_message : String
  bug_type : String
  raw_output : String
deriving DecidableEq, Repr

/-- External results consulted while processing one failure:
`manifestGuess` is `_guess_import_manifest` (the manifest's repo-relative
path, `none` when absent); `fileExists`/`fileContent` describe the target
file; `ruleFix` is the rule fixer's return value for the four rule-handled
bug types; `llmFix` is `_llm_generate_fix`'s patched content;
`manifestContent`/`manifestFix` describe the IMPORT manifest fallback
(`_fix_import` applied to the manifest). -/
structure FailureEnv where
  manifestGuess : Option String
  fileExists : Bool
  fileContent : String
  ruleFix : Option String
  llmFix : Option String
  manifestContent : String
  manifestFix : Option String
deriving Repr

/-- A `FixRecord` for a failure skipped by `fix_generator`. -/
def skippedRecord (fp : String) (failure : TestFailure) (why : String) : FixRecord :=
  { file_path := fp
    bug_type := failure.bug_type
    line_number := failure.line_number
    description := failure.error_message
    fix_description := why
    original_code := ""
    fixed_code := ""
    status := "skipped"
    commit_sha := none
    commit_message := ""
    confidence := 0
    model_used := "rule-based" }

/-- The bug types with an entry in `_RULE_FIXERS`. -/
def RULE_FIXER_TYPES : List String :=
  ["IMPORT", "INDENTATION", "SYNTAX", "LINTING"]

/-- The rule-fixer dispatch of `fix_generator`
(`fixer = _RULE_FIXERS.get(failure.bug_type)`): the rule result is consulted
only for the four rule-handled bug types. -/
def pkpRuleResult (env : FailureEnv) (failure : TestFailure) : Option String :=
  if RULE_FIXER_TYPES.contains failure.bug_type then env.ruleFix else none

/-- Steps 1–2 of the cascade in the loop body of `fix_generator`: the rule
fixer, then the LLM fallback; returns `(fixed_code, model_used)`. -/
def pkpAfterLlm (openaiModel : String) (env : FailureEnv)
    (failure : TestFailure) : Option String × String :=
  match pkpRuleResult env failure with
  | some fixed => (some fixed, "rule-based")
  | none =>
      match env.llmFix with
      | some fixed => (some fixed, if openaiModel == "" then "llm" else openaiModel)
      | none => (none, "rule-based")

/-- Step 3, the IMPORT manifest fallback: the final
`(adopted patch, model_used)` where the patch carries the target path, the
original content read for it, and the fixed content. -/
def pkpAdopted (openaiModel : String) (env : FailureEnv)
    (failure : TestFailure) (fp : String) :
    Option (String × String × String) × String :=
  match pkpAfterLlm openaiModel env failure with
  | (some fixed, modelUsed) => (some (fp, env.fileContent, fixed), modelUsed)
  | (none, modelUsed) =>
      if failure.bug_type == "IMPORT" then
        match env.manifestGuess with
        | some mfp =>
            if !(mfp == fp) then
              match env.manifestFix with
              | some mfixed =>
                  if !(mfixed == "") && !(mfixed == env.manifestContent) then
                    (some (mfp, env.manifestContent, mfixed), "rule-based")
                  else (none, modelUsed)
              | none => (none, modelUsed)
            else (none, modelUsed)
        | none => (none, modelUsed)
      else (none, modelUsed)

/-- The body of the `for` loop of `fix_generator` after the unknown-path
guard, processing one failure against the target path `fp`; returns the
records appended to `new_fixes` during this iteration. -/
def processKnownPath (openaiModel : String) (env : FailureEnv)
    (failure : TestFailure) (fp : String) : List FixRecord :=
  if !env.fileExists then
    [skippedRecord fp failure "File not found — skipped"]
  else
    match pkpAdopted openaiModel env failure fp with
    | (none, modelUsed) =>
        [{ file_path := fp
           bug_type := failure.bug_type
           line_number := failure.line_number
           description := failure.error_message
           fix_description := "Could not generate fix"
           original_code := pyTake 500 env.fileContent
           fixed_code := ""
           status := "failed"
           commit_sha := none
           commit_message := ""
           confidence := 0
           model_used := modelUsed }]
    | (some (targetFp, originalUsed, fixedCode), modelUsed) =>
        [{ file_path := targetFp
           bug_type := failure.bug_type
           line_number := failure.line_number
           description := failure.error_message
           fix_description := modelUsed ++ " fix for " ++ failure.bug_type
           original_code := pyTake 500 originalUsed
           fixed_code := pyTake 500 fixedCode
           status := "applied"
           commit_sha := none
           commit_message := ""
           confidence := if modelUsed == "rule-based" then 95 / 100 else 75 / 100
           model_used := modelUsed }]

/-- One iteration of the `for` loop of `fix_generator`: the unknown-path
guard, then the rule/LLM/manifest cascade. -/
def processFailure (openaiModel : String) (env : FailureEnv)
    (failure : TestFailure) : List FixRecord :=
  let fp0 := if failure.file_path == "" then "unknown" else failure.file_path
  if fp0 == "unknown" || (pyStrip fp0.data).isEmpty then
    if failure.bug_type == "IMPORT" then
      match env.manifestGuess with
      | some mfp => processKnownPath openaiModel env failure mfp
      | none => [skippedRecord fp0 failure "Unknown file path — skipped"]
    else
      [skippedRecord fp0 failure "Unknown file path — skipped"]
  else
    processKnownPath openaiModel env failure fp0

/-- The loop of `fix_generator` over the failure list, carrying the
enumeration index. -/
def fixGenLoop (openaiModel : String) (envFn : Nat → FailureEnv) (i : Nat) :
    List TestFailure → List FixRecord
  | [] => []
  | f :: rest =>
      processFailure openaiModel (envFn i) f ++ fixGenLoop openaiModel envFn (i + 1) rest

/-- The fix list after the `fix_generator` node: unchanged when there are no
failures (the node returns no `fixes` key), otherwise
`existing_fixes + new_fixes`. -/
def fixGenerator (openaiModel : String) (envFn : Nat → FailureEnv)
    (existingFixes : List FixRecord) (failures : List TestFailure) : List FixRecord :=
  if failures.isEmpty then existingFixes
  else existingFixes ++ fixGenLoop openaiModel envFn 0 failures

/-- A concrete per-failure environment, for witnesses. -/
def witnessEnv : FailureEnv :=
  { manifestGuess := none
    fileExists := true
    fileContent := "def f():\n    return 1\n  return 2\n"
    ruleFix := some "def f():\n    return 1\n    return 2\n"
    llmFix := none
    manifestContent := ""
    manifestFix := none }

/-- Two concrete failures (one rule-fixable, one with an unknown path), for
witnesses. -/
def witnessFailures : List TestFailure :=
  [ { file_path := "app.py"
      test_name := "test_f"
      line_number := 3
      error_message := "IndentationError: unexpected indent"
      bug_type := "INDENTATION"
      raw_output := "" }
  , { file_path := ""
      test_name := "test_g"
      line_number := 1
      error_message := "AssertionError: assert 1 == 2"
      bug_type := "LOGIC"
      raw_output := "" } ]

/-- A concrete applied-and-not-yet-committed fix, for witnesses. -/
def sampleAppliedFix : FixRecord :=
  { file_path := "app.py"
    bug_type := "INDENTATION"
    line_number := 3
    description := "IndentationError: unexpected indent"
    fix_description := "rule-based fix for INDENTATION"
    original_code := ""
    fixed_code := ""
    status := "applied"
    commit_sha := none
    commit_message := ""
    confidence := 95 / 100
    model_used := "rule-based" }

/-! ## Helper lemmas -/

/-- Boolean `hasSubstr` decides the `IsInfix` relation. -/
theorem hasSubstr_iff (needle hay : List Char) :
    hasSubstr needle hay = true ↔ needle <:+: hay := by
  unfold hasSubstr
  rw [List.any_eq_true]
  constructor
  · rintro ⟨t, ht, hp⟩
    exact List.IsInfix.trans
      (List.IsPrefix.isInfix (List.isPrefixOf_iff_prefix.mp hp))
      (List.IsSuffix.isInfix ((List.mem_tails _ _).mp ht))
  · rintro ⟨s, t, rfl⟩
    refine ⟨needle ++ t, ?_, ?_⟩
    · exact (List.mem_tails _ _).mpr ⟨s, by simp⟩
    · exact List.isPrefixOf_iff_prefix.mpr ⟨t, rfl⟩

/-- Rounding `round1` commutes with adding an integer. -/
theorem round1_add_intCast (x : ℚ) (n : ℤ) : round1 (x + n) = round1 x + n := by
  unfold round1
  have h : (10 : ℚ) * (x + n) = 10 * x + ((10 * n : ℤ) : ℚ) := by push_cast; ring
  rw [h, show ((10 * n : ℤ) : ℚ) = (((10 * n : ℤ) : ℤ) : ℚ) from rfl]
  rw [round_add_int]
  push_cast
  ring

/-- Rounding `round1` fixes integers. -/
theorem round1_intCast (n : ℤ) : round1 (n : ℚ) = n := by
  have := round1_add_intCast 0 n
  simpa [round1] using this

/-! ## Claims -/

/-- C1: for every state whose `branch_name` case-insensitively equals one of
main, master, develop or release, `commit_push` performs no commit and no
push (the git outcome is never consulted and `attemptedGit` is `false`),
and returns status `quarantined`, quarantine reason
`BLOCKED: Refusing to push to protected branch '<branch_name>'`, and
`pushed_this_iteration = false`; consequently no push ever targets a
protected branch. -/
theorem commitPush_protected_branch_quarantines (branch : String)
    (fixes : List FixRecord) (outcome : PushOutcome)
    (h : strLower branch ∈ PROTECTED_BRANCHES) :
    (commitPush branch fixes outcome).status = some "quarantined" ∧
    (commitPush branch fixes outcome).quarantine_reason =
      some ("BLOCKED: Refusing to push to protected branch '" ++ branch ++ "'") ∧
    (commitPush branch fixes outcome).pushed_this_iteration = false ∧
    (commitPush branch fixes outcome).attemptedGit = false ∧
    (commitPush branch fixes outcome).commits_added = 0 := by
  simp [commitPush, h]

/-- Witness for C1 at branch `"MAIN"`. -/
theorem commitPush_protected_branch_quarantines_witness :
    (commitPush "MAIN" [] (PushOutcome.success "abc1234")).status = some "quarantined" ∧
    (commitPush "MAIN" [] (PushOutcome.success "abc1234")).quarantine_reason =
      some ("BLOCKED: Refusing to push to protected branch '" ++ "MAIN" ++ "'") ∧
    (commitPush "MAIN" [] (PushOutcome.success "abc1234")).pushed_this_iteration = false ∧
    (commitPush "MAIN" [] (PushOutcome.success "abc1234")).attemptedGit = false ∧
    (commitPush "MAIN" [] (PushOutcome.success "abc1234")).commits_added = 0 :=
  commitPush_protected_branch_quarantines "MAIN" [] (PushOutcome.success "abc1234")
    (by decide)

/-- C3 (code bug): an error message containing `IndentationError` is
classified SYNTAX, not INDENTATION — the SYNTAX pattern, tried first in the
cascade, itself lists `IndentationError`, so the INDENTATION pattern (whose
comment says it is "checked first") can never win on such messages. -/
theorem classifyBugType_indentation_error_is_syntax :
    classifyBugType "IndentationError: unexpected indent" = "SYNTAX" ∧
    (classifyBugType "IndentationError: unexpected indent" == "INDENTATION") = false := by
  constructor
  · decide
  · decide

/-- C6: the scorer maps the internal CI status `no_ci` to `failed`
(`_public_ci_status`), so the `ci_log` section of `results.json` never
contains `no_ci`. -/
theorem scorer_ci_log_never_no_ci (totalTimeSecs : ℚ) (totalCommits : Nat)
    (fixes : List FixRecord) (ciRuns : List CiRun) (testExitCode : Int)
    (currentCi : String) (quarantineReason : Option String) :
    publicCiStatus "no_ci" = "failed" ∧
    ((scorerResults totalTimeSecs totalCommits fixes ciRuns testExitCode currentCi
        quarantineReason).ci_log.map CiLogRow.status).all
      (fun s => !(s == "no_ci")) = true := by
  refine ⟨rfl, ?_⟩
  have hne : ∀ s : String, (publicCiStatus s == "no_ci") = false := by
    intro s
    by_cases h : s = "no_ci"
    · subst h; decide
    · simp [publicCiStatus, h]
  simp only [scorerResults, List.map_map]
  rw [List.all_eq_true]
  intro x hx
  obtain ⟨cr, -, rfl⟩ := List.mem_map.mp hx
  simpa using hne cr.status

/-- C7: `_run_cmd` returns its result as data in every case: exit code 127
with an explanatory output when the command binary is missing, exit code 1
when the 120-second budget is exceeded, and `proc.returncode or 0`
otherwise. -/
theorem runCmd_missing_binary_and_timeout (cmd : List String) (out : String)
    (rc : Option Int) :
    runCmd cmd CmdOutcome.binaryMissing =
      ("ERROR: Test command not found — " ++ cmd.headD "", 127) ∧
    runCmd cmd CmdOutcome.timedOut =
      ("ERROR: Test execution timed out after 120s", 1) ∧
    runCmd cmd (CmdOutcome.completed out rc) = (out, pyOrZero rc) := by
  exact ⟨rfl, rfl, rfl⟩

/-- C5: the routing predicate after CIWatcher checks, in order: `no_ci`
without a created workflow → bootstrap (`create_workflow`); CI passed with
test exit 0 → scorer; quarantine reason set → scorer; iteration at or above
the budget → scorer; otherwise retry. -/
theorem shouldRetry_clause_order (ciStatus : String) (testExit : Int)
    (iteration maxIter : Nat) (quarantine : Option String) (workflowCreated : Bool) :
    (ciStatus = "no_ci" ∧ workflowCreated = false →
      shouldRetry ciStatus testExit iteration maxIter quarantine workflowCreated =
        "create_workflow") ∧
    (¬(ciStatus = "no_ci" ∧ workflowCreated = false) →
      ciStatus = "passed" ∧ testExit = 0 →
      shouldRetry ciStatus testExit iteration maxIter quarantine workflowCreated =
        "scorer") ∧
    (¬(ciStatus = "no_ci" ∧ workflowCreated = false) →
      ¬(ciStatus = "passed" ∧ testExit = 0) →
      pyTruthy quarantine = true →
      shouldRetry ciStatus testExit iteration maxIter quarantine workflowCreated =
        "scorer") ∧
    (¬(ciStatus = "no_ci" ∧ workflowCreated = false) →
      ¬(ciStatus = "passed" ∧ testExit = 0) →
      pyTruthy quarantine = false →
      maxIter ≤ iteration →
      shouldRetry ciStatus testExit iteration maxIter quarantine workflowCreated =
        "scorer") ∧
    (¬(ciStatus = "no_ci" ∧ workflowCreated = false) →
      ¬(ciStatus = "passed" ∧ testExit = 0) →
      pyTruthy quarantine = false →
      iteration < maxIter →
      shouldRetry ciStatus testExit iteration maxIter quarantine workflowCreated =
        "retry") := by
  unfold shouldRetry
  refine ⟨?_, ?_, ?_, ?_, ?_⟩
  · rintro ⟨rfl, rfl⟩
    simp
  · intro h1 h2
    obtain ⟨rfl, rfl⟩ := h2
    simp
  · intro h1 h2 h3
    rw [if_neg, if_neg, if_pos h3]
    · simp only [beq_iff_eq, Bool.and_eq_true, decide_eq_true_eq, not_and]
      intro hc
      exact fun he => h2 ⟨hc, he⟩
    · simp only [beq_iff_eq, Bool.and_eq_true, Bool.not_eq_true', not_and]
      intro hc
      intro hw
      exact h1 ⟨hc, hw⟩
  · intro h1 h2 h3 h4
    rw [if_neg, if_neg, if_neg, if_pos h4]
    · rw [h3]; simp
    · simp only [beq_iff_eq, Bool.and_eq_true, decide_eq_true_eq, not_and]
      intro hc
      exact fun he => h2 ⟨hc, he⟩
    · simp only [beq_iff_eq, Bool.and_eq_true, Bool.not_eq_true', not_and]
      intro hc hw
      exact h1 ⟨hc, hw⟩
  · intro h1 h2 h3 h4
    rw [if_neg, if_neg, if_neg, if_neg]
    · omega
    · rw [h3]; simp
    · simp only [beq_iff_eq, Bool.and_eq_true, decide_eq_true_eq, not_and]
      intro hc
      exact fun he => h2 ⟨hc, he⟩
    · simp only [beq_iff_eq, Bool.and_eq_true, Bool.not_eq_true', not_and]
      intro hc hw
      exact h1 ⟨hc, hw⟩

/-- Witness for C5 at the bootstrap clause. -/
theorem shouldRetry_clause_order_witness :
    shouldRetry "no_ci" 1 1 5 none false = "create_workflow" :=
  (shouldRetry_clause_order "no_ci" 1 1 5 none false).1 ⟨rfl, rfl⟩

/-- C10 (implicit): the `total_failures` reported by the scorer is the
number of `FixRecord`s whose status is not `rolled_back` — not the number of
analyzed `TestFailure`s; with an empty fix list the scorer reports
`total_failures = 0` and the score keeps `base = 100`. -/
theorem scorer_total_failures_counts_fix_records (totalTimeSecs : ℚ)
    (totalCommits : Nat) (fixes : List FixRecord) (ciRuns : List CiRun)
    (testExitCode : Int) (currentCi : String) (quarantineReason : Option String) :
    (scorerResults totalTimeSecs totalCommits fixes ciRuns testExitCode currentCi
        quarantineReason).total_failures =
      (fixes.filter fun f => !(f.status == "rolled_back")).length ∧
    (fixes = [] →
      (scorerResults totalTimeSecs totalCommits fixes ciRuns testExitCode currentCi
          quarantineReason).total_failures = 0 ∧
      (scorerResults totalTimeSecs totalCommits fixes ciRuns testExitCode currentCi
          quarantineReason).score.base = 100) := by
  refine ⟨rfl, ?_⟩
  rintro rfl
  refine ⟨rfl, ?_⟩
  show (computeScore totalTimeSecs totalCommits 0 0 _).base = 100
  unfold computeScore
  have h100 : round1 SCORE_BASE = 100 := by
    have := round1_intCast 100
    simpa [SCORE_BASE] using this
  split_ifs <;> first
    | (simpa [SCORE_BASE] using h100)
    | (exfalso; omega)

/-- Folding `lowerChars` distributes over append. -/
theorem lowerChars_append (a b : String) :
    lowerChars (a ++ b) = lowerChars a ++ lowerChars b := by
  simp [lowerChars]

/-- The error message set by the push-failure branch of `commit_push`
contains `commit/push failed` case-insensitively, so `should_monitor_ci`
routes to the scorer. -/
theorem shouldMonitorCi_push_failure (tail : String) :
    shouldMonitorCi ("Git commit/push failed: " ++ tail) pushed = "scorer" := by
  unfold shouldMonitorCi
  have hne : (("Git commit/push failed: " ++ tail) == "") = false := by
    apply beq_eq_false_iff_ne.mpr
    intro hcontra
    have hdata := congrArg String.data hcontra
    rw [String.data_append] at hdata
    obtain ⟨h1, -⟩ := List.append_eq_nil.mp hdata
    exact absurd h1 (by decide)
  have hinf : hasSubstr "commit/push failed".data
      (lowerChars ("Git commit/push failed: " ++ tail)) = true := by
    rw [lowerChars_append]
    apply (hasSubstr_iff _ _).mpr
    have h1 : "commit/push failed".data <:+: lowerChars "Git commit/push failed: " := by
      decide
    exact List.IsInfix.trans h1 (List.IsPrefix.isInfix (List.prefix_append _ _))
  rw [hne, hinf]
  rfl

/-- C4: when the push is rejected (REJECTED / REMOTE_REJECTED / ERROR /
REMOTE_FAILURE flags, surfaced as `RuntimeError("Push rejected: …")`),
every fix in the committed batch ends with status `failed`, the returned
state carries the `Git commit/push failed: …` error message and
`pushed_this_iteration = false`, the routing predicate then selects the
scorer instead of `ci_monitor`, and `pushed_this_iteration` is `true` only
for a successful push. -/
theorem commitPush_rejected_fails_batch (branch : String) (fixes : List FixRecord)
    (summary : String)
    (hb : strLower branch ∉ PROTECTED_BRANCHES)
    (ha : (fixes.filter batchPending).isEmpty = false) :
    (commitPush branch fixes (PushOutcome.rejected summary)).error_message =
      some ("Git commit/push failed: Push rejected: " ++ summary) ∧
    (commitPush branch fixes (PushOutcome.rejected summary)).pushed_this_iteration =
      false ∧
    (commitPush branch fixes (PushOutcome.rejected summary)).fixes.length =
      fixes.length ∧
    (∀ i (h1 : i < fixes.length)
        (h2 : i < (commitPush branch fixes (PushOutcome.rejected summary)).fixes.length),
      batchPending fixes[i] = true →
      ((commitPush branch fixes (PushOutcome.rejected summary)).fixes[i]).status =
        "failed") ∧
    shouldMonitorCi ("Git commit/push failed: Push rejected: " ++ summary)
      (commitPush branch fixes (PushOutcome.rejected summary)).pushed_this_iteration =
      "scorer" ∧
    (∀ outcome : PushOutcome,
      (commitPush branch fixes outcome).pushed_this_iteration = true →
      ∃ sha, outcome = PushOutcome.success sha) := by
  have hbc : ¬(PROTECTED_BRANCHES.contains (strLower branch) = true) := fun hc =>
    hb (List.mem_of_elem_eq_true hc)
  have hac : ¬((fixes.filter batchPending).isEmpty = true) := by
    rw [ha]; exact Bool.false_ne_true
  have hcp : ∀ outcome, commitPush branch fixes outcome =
      (match outcome with
       | PushOutcome.success sha =>
          { fixes := fixes.map fun f =>
              if batchPending f then
                { f with
                    commit_sha := some sha
                    commit_message :=
                      "[AI-AGENT] Fix " ++ f.bug_type ++ ": " ++ pyTake 80 f.description }
              else f
            status := none
            quarantine_reason := none
            error_message := none
            pushed_this_iteration := true
            commits_added := 1
            attemptedGit := true }
       | PushOutcome.rejected summary =>
          commitPushFail fixes ("Git commit/push failed: Push rejected: " ++ summary)
       | PushOutcome.gitError msg =>
          commitPushFail fixes ("Git commit/push failed: " ++ msg)) := by
    intro outcome
    unfold commitPush
    rw [if_neg hbc, if_neg hac]
  refine ⟨?_, ?_, ?_, ?_, ?_, ?_⟩
  · rw [hcp]
    rfl
  · rw [hcp]
    rfl
  · rw [hcp]
    show (commitPushFail fixes _).fixes.length = fixes.length
    simp [commitPushFail]
  · intro i h1 h2 hpend
    have key : (commitPush branch fixes (PushOutcome.rejected summary)).fixes =
        fixes.map fun f => if batchPending f then { f with status := "failed" } else f := by
      rw [hcp]
      rfl
    rw [List.getElem_of_eq key h2]
    simp [List.getElem_map, hpend]
  · rw [hcp]
    exact shouldMonitorCi_push_failure ("Push rejected: " ++ summary)
  · intro outcome hpush
    rw [hcp] at hpush
    cases outcome with
    | success sha => exact ⟨sha, rfl⟩
    | rejected s => simp [commitPushFail] at hpush
    | gitError m => simp [commitPushFail] at hpush

/-- Witness for C4 with one applied fix on a non-protected branch. -/
theorem commitPush_rejected_fails_batch_witness :
    (commitPush "RIFT_LEAD_AI_Fix" [sampleAppliedFix]
        (PushOutcome.rejected "pre-receive hook declined")).error_message =
      some ("Git commit/push failed: Push rejected: " ++ "pre-receive hook declined") ∧
    (commitPush "RIFT_LEAD_AI_Fix" [sampleAppliedFix]
        (PushOutcome.rejected "pre-receive hook declined")).pushed_this_iteration =
      false ∧
    (commitPush "RIFT_LEAD_AI_Fix" [sampleAppliedFix]
        (PushOutcome.rejected "pre-receive hook declined")).fixes.length =
      [sampleAppliedFix].length ∧
    (∀ i (h1 : i < [sampleAppliedFix].length)
        (h2 : i < (commitPush "RIFT_LEAD_AI_Fix" [sampleAppliedFix]
          (PushOutcome.rejected "pre-receive hook declined")).fixes.length),
      batchPending [sampleAppliedFix][i] = true →
      ((commitPush "RIFT_LEAD_AI_Fix" [sampleAppliedFix]
          (PushOutcome.rejected "pre-receive hook declined")).fixes[i]).status =
        "failed") ∧
    shouldMonitorCi
      ("Git commit/push failed: Push rejected: " ++ "pre-receive hook declined")
      (commitPush "RIFT_LEAD_AI_Fix" [sampleAppliedFix]
          (PushOutcome.rejected "pre-receive hook declined")).pushed_this_iteration =
      "scorer" ∧
    (∀ outcome : PushOutcome,
      (commitPush "RIFT_LEAD_AI_Fix" [sampleAppliedFix] outcome).pushed_this_iteration =
        true →
      ∃ sha, outcome = PushOutcome.success sha) :=
  commitPush_rejected_fails_batch "RIFT_LEAD_AI_Fix" [sampleAppliedFix]
    "pre-receive hook declined" (by decide) (by decide)

/-- Shifting by an integer commutes with `max 0 ∘ round1`. -/
theorem max0_round1_add_sub (x : ℚ) (b p : ℤ) :
    max 0 (round1 (x + b - p)) = max 0 (round1 x + b - p) := by
  have h : x + (b : ℚ) - (p : ℚ) = x + ((b - p : ℤ) : ℚ) := by push_cast; ring
  rw [h, round1_add_intCast]
  push_cast
  ring_nf

/-- Specialization of `max0_round1_add_sub` to a bonus of 10. -/
theorem max0_round1_add10_sub (x : ℚ) (p : ℤ) :
    max 0 (round1 (x + 10 - p)) = max 0 (round1 x + 10 - p) := by
  have h := max0_round1_add_sub x 10 p
  push_cast at h
  exact h

/-- Specialization of `max0_round1_add_sub` to a bonus of 0. -/
theorem max0_round1_add0_sub (x : ℚ) (p : ℤ) :
    max 0 (round1 (x + 0 - p)) = max 0 (round1 x + 0 - p) := by
  have h := max0_round1_add_sub x 0 p
  push_cast at h
  exact h

/-- C2: the score computation — base 100, scaled by the fix rate when
failures exist, reset to 100 on PASSED; speed bonus 10 iff fixes were
applied and the run took under 300 s (on PASSED, only the time condition);
efficiency penalty 2 per commit beyond 20; total clamped at 0 (so the total
is never negative).  The reported `base` and `total` are rounded to one
decimal, as in the source. -/
theorem computeScore_formula (t : ℚ) (c f a : Nat) (p : Bool) :
    (computeScore t c f a p).base =
      round1 (if p = true then 100
              else if 0 < f then 100 * ((a : ℚ) / (f : ℚ)) else 100) ∧
    (computeScore t c f a p).speed_bonus =
      (if p = true then (if t < 300 then (10 : ℚ) else 0)
       else if 0 < a ∧ t < 300 then 10 else 0) ∧
    (computeScore t c f a p).efficiency_penalty = 2 * max 0 ((c : ℚ) - 20) ∧
    (computeScore t c f a p).total =
      max 0 ((computeScore t c f a p).base + (computeScore t c f a p).speed_bonus -
        (computeScore t c f a p).efficiency_penalty) ∧
    0 ≤ (computeScore t c f a p).total := by
  unfold computeScore
  simp only [SCORE_BASE, SCORE_SPEED_BONUS, SCORE_SPEED_THRESHOLD_SECS,
    SCORE_EFFICIENCY_PENALTY_PER_COMMIT, SCORE_EFFICIENCY_FREE_COMMITS]
  refine ⟨?_, ?_, ?_, ?_, ?_⟩
  · cases p <;> simp
  · cases p <;> simp
  · push_cast
    ring_nf
  · cases p <;> split_ifs <;>
      first
        | rw [max0_round1_add10_sub]
        | rw [max0_round1_add0_sub]
  · exact le_max_left 0 _

/-- Witness for C10 with an empty fix list. -/
theorem scorer_total_failures_counts_fix_records_witness :
    (scorerResults 50 1 [] [] 1 "failed" none).total_failures =
      (([] : List FixRecord).filter fun f => !(f.status == "rolled_back")).length ∧
    (scorerResults 50 1 [] [] 1 "failed" none).total_failures = 0 ∧
    (scorerResults 50 1 [] [] 1 "failed" none).score.base = 100 := by
  obtain ⟨h1, h2⟩ := scorer_total_failures_counts_fix_records 50 1 [] [] 1 "failed" none
  exact ⟨h1, h2 rfl⟩

/-- Dropping Python whitespace from a list without any is the identity. -/
theorem dropWhile_eq_self_of_all (l : List Char)
    (h : ∀ c ∈ l, pyIsSpace c = false) : l.dropWhile pyIsSpace = l := by
  cases l with
  | nil => rfl
  | cons c r => rw [List.dropWhile_cons]; simp [h c (by simp)]

/-- Python `strip` is the identity on whitespace-free lists. -/
theorem pyStrip_eq_self (M : List Char) (h : ∀ c ∈ M, pyIsSpace c = false) :
    pyStrip M = M := by
  unfold pyStrip
  rw [dropWhile_eq_self_of_all M h,
    dropWhile_eq_self_of_all M.reverse (fun c hc => h c (List.mem_reverse.mp hc)),
    List.reverse_reverse]

/-- Python `split("==")[0]` is the identity when `=` does not occur. -/
theorem takeUntilEqEq_eq_self (M : List Char) (h : ∀ c ∈ M, (c == '=') = false) :
    takeUntilEqEq M = M := by
  induction M with
  | nil => rfl
  | cons c r ih =>
      rw [takeUntilEqEq]
      simp [h c (by simp)]
      exact ih fun c hc => h c (by simp [hc])

/-- Splitting a break-free line terminated by a newline yields that line
appended to the pending accumulator. -/
theorem pySplitlinesGo_append_newline (rest : List Char)
    (h : ∀ c ∈ rest, pyIsLineBreak c = false) :
    ∀ fuel acc, (rest ++ ['\n']).length ≤ fuel →
      pySplitlinesGo fuel acc (rest ++ ['\n']) = [acc.reverse ++ rest] := by
  induction rest with
  | nil =>
      intro fuel acc hfuel
      obtain ⟨f, rfl⟩ : ∃ f, fuel = f + 1 := by
        cases fuel with
        | zero => simp at hfuel
        | succ f => exact ⟨f, rfl⟩
      rw [List.nil_append, pySplitlinesGo]
      simp [show pyIsLineBreak '\n' = true from by decide]
  | cons c r ih =>
      intro fuel acc hfuel
      obtain ⟨f, rfl⟩ : ∃ f, fuel = f + 1 := by
        cases fuel with
        | zero => simp at hfuel
        | succ f => exact ⟨f, rfl⟩
      have hc : pyIsLineBreak c = false := h c (by simp)
      rw [List.cons_append, pySplitlinesGo]
      simp only [hc, Bool.false_eq_true, if_false]
      rw [ih (fun x hx => h x (by simp [hx])) f (c :: acc) (by simp at hfuel ⊢; omega)]
      simp

/-- If the prefix `A` is empty (with an empty accumulator) or ends with a
newline, the break-free line `M` terminated by `'\n'` appears intact among
the split lines. -/
theorem mem_pySplitlinesGo_boundary (M : List Char) (hM : M ≠ [])
    (hMno : ∀ c ∈ M, pyIsLineBreak c = false) :
    ∀ n A acc fuel, A.length ≤ n →
      (A ++ (M ++ ['\n'])).length ≤ fuel →
      (A = [] → acc = []) →
      (A ≠ [] → A.getLast? = some '\n') →
      M ∈ pySplitlinesGo fuel acc (A ++ (M ++ ['\n'])) := by
  intro n
  induction n with
  | zero =>
      intro A acc fuel hlen hfuel h1 h2
      have hA : A = [] := List.length_eq_zero.mp (Nat.le_zero.mp hlen)
      subst hA
      rw [h1 rfl, List.nil_append,
        pySplitlinesGo_append_newline M hMno fuel [] (by simpa using hfuel)]
      simp
  | succ n ih =>
      intro A acc fuel hlen hfuel h1 h2
      cases A with
      | nil =>
          rw [h1 rfl, List.nil_append,
            pySplitlinesGo_append_newline M hMno fuel [] (by simpa using hfuel)]
          simp
      | cons c r =>
          have hlast : (c :: r).getLast? = some '\n' := h2 (by simp)
          obtain ⟨f, rfl⟩ : ∃ f, fuel = f + 1 := by
            cases fuel with
            | zero => simp at hfuel
            | succ f => exact ⟨f, rfl⟩
          rw [List.cons_append, pySplitlinesGo]
          by_cases hbrk : pyIsLineBreak c = true
          · rw [hbrk, if_pos rfl]
            by_cases hpair : (c == '\r' && (r ++ (M ++ ['\n'])).head? == some '\n') = true
            · rw [if_pos hpair]
              have hcr : c = '\r' := by
                have := (Bool.and_eq_true _ _).mp hpair
                exact beq_iff_eq.mp this.1
              have hhead : (r ++ (M ++ ['\n'])).head? = some '\n' := by
                have := (Bool.and_eq_true _ _).mp hpair
                exact beq_iff_eq.mp this.2
              cases r with
              | nil =>
                  exfalso
                  rw [List.getLast?_singleton] at hlast
                  have : c = '\n' := by injection hlast
                  rw [hcr] at this
                  exact absurd this (by decide)
              | cons c2 r2 =>
                  have hc2 : c2 = '\n' := by
                    rw [List.cons_append, List.head?_cons] at hhead
                    injection hhead
                  subst hc2
                  have htail : (('\n' :: r2) ++ (M ++ ['\n'])).tail = r2 ++ (M ++ ['\n']) := by
                    simp
                  rw [htail]
                  have hne : (r2 ++ (M ++ ['\n'])).isEmpty = false := by
                    cases r2 <;> cases M <;> simp_all
                  rw [hne]
                  simp only [Bool.false_eq_true, if_false]
                  refine List.mem_cons_of_mem _ (ih r2 [] f ?_ ?_ (fun _ => rfl) ?_)
                  · simp at hlen; omega
                  · simp at hfuel ⊢; omega
                  · intro hr2
                    rw [List.getLast?_cons_cons] at hlast
                    cases r2 with
                    | nil => exact absurd rfl hr2
                    | cons a b => exact hlast
            · rw [if_neg hpair]
              have hne : (r ++ (M ++ ['\n'])).isEmpty = false := by
                cases r <;> cases M <;> simp_all
              rw [hne]
              simp only [Bool.false_eq_true, if_false]
              refine List.mem_cons_of_mem _ (ih r [] f ?_ ?_ (fun _ => rfl) ?_)
              · simp at hlen; omega
              · simp at hfuel ⊢; omega
              · intro hr
                cases r with
                | nil => exact absurd rfl hr
                | cons a b => rw [List.getLast?_cons_cons] at hlast; exact hlast
          · have hbrkF : pyIsLineBreak c = false := by
              simpa using hbrk
            rw [hbrkF]
            simp only [Bool.false_eq_true, if_false]
            have hr : r ≠ [] := by
              intro hr0
              subst hr0
              rw [List.getLast?_singleton] at hlast
              have : c = '\n' := by injection hlast
              rw [this] at hbrkF
              exact absurd hbrkF (by decide)
            refine ih r (c :: acc) f ?_ ?_ (fun h0 => absurd h0 hr) ?_
            · simp at hlen; omega
            · simp at hfuel ⊢; omega
            · intro _
              cases r with
              | nil => exact absurd rfl hr
              | cons a b => rw [List.getLast?_cons_cons] at hlast; exact hlast

/-- The appended module line is one of the lines of the patched
`requirements.txt`. -/
theorem mem_pySplitlines_append (M A : List Char) (hM : M ≠ [])
    (hMno : ∀ c ∈ M, pyIsLineBreak c = false)
    (hA : A = [] ∨ A.getLast? = some '\n') :
    M ∈ pySplitlines (A ++ (M ++ ['\n'])) := by
  unfold pySplitlines
  have hne : (A ++ (M ++ ['\n'])).isEmpty = false := by
    cases A <;> cases M <;> simp_all
  rw [hne]
  simp only [Bool.false_eq_true, if_false]
  refine mem_pySplitlinesGo_boundary M hM hMno A.length A []
    (A ++ (M ++ ['\n'])).length le_rfl le_rfl (fun _ => rfl) ?_
  intro hAne
  exact hA.resolve_left hAne

/-- C8: the Synthesizer's IMPORT rule on `requirements.txt` is idempotent:
once the missing module `M` (a module name: nonempty, no whitespace, no
line break, no `=`) has been appended, a second application returns no
patch, so no duplicate entry is ever added. -/
theorem fixImportReq_idempotent (M content patched : List Char)
    (hM : M ≠ [])
    (hMchars : ∀ c ∈ M, pyIsSpace c = false ∧ pyIsLineBreak c = false ∧ (c == '=') = false)
    (happ : fixImportReq M content = some patched) :
    fixImportReq M patched = none := by
  have hMne : M.isEmpty = false := by
    cases M with
    | nil => exact absurd rfl hM
    | cons a b => rfl
  unfold fixImportReq at happ
  rw [hMne] at happ
  simp only [Bool.false_eq_true, if_false] at happ
  by_cases hcont : (reqNormalized content).contains (M.map Char.toLower) = true
  · rw [hcont] at happ
    simp at happ
  · rw [Bool.not_eq_true] at hcont
    rw [hcont] at happ
    simp only [Bool.false_eq_true, if_false, Option.some.injEq] at happ
    have hbound :
        (if !content.isEmpty && !(content.getLast? == some '\n') then content ++ ['\n']
         else content) = [] ∨
        (if !content.isEmpty && !(content.getLast? == some '\n') then content ++ ['\n']
         else content).getLast? = some '\n' := by
      by_cases hcond : (!content.isEmpty && !(content.getLast? == some '\n')) = true
      · right
        rw [if_pos hcond, List.getLast?_concat]
      · rw [Bool.not_eq_true] at hcond
        rw [if_neg (by rw [hcond]; exact Bool.false_ne_true)]
        rcases Bool.and_eq_false_iff.mp hcond with h0 | h0
        · left
          have : content.isEmpty = true := by
            cases hcemp : content.isEmpty with
            | true => rfl
            | false => rw [hcemp] at h0; exact absurd h0 (by decide)
          exact List.isEmpty_iff.mp this
        · right
          have : (content.getLast? == some '\n') = true := by
            cases hcl : (content.getLast? == some '\n') with
            | true => rfl
            | false => rw [hcl] at h0; exact absurd h0 (by decide)
          exact beq_iff_eq.mp this
    have hmem : M ∈ pySplitlines patched := by
      rw [← happ, List.append_assoc]
      exact mem_pySplitlines_append M _ hM (fun c hc => (hMchars c hc).2.1) hbound
    have hmem2 : M.map Char.toLower ∈ reqNormalized patched := by
      refine List.mem_filterMap.mpr ⟨M, hmem, ?_⟩
      simp only [pyStrip_eq_self M (fun c hc => (hMchars c hc).1), hMne,
        Bool.false_eq_true, if_false]
      rw [takeUntilEqEq_eq_self M (fun c hc => (hMchars c hc).2.2)]
    have hcont2 : (reqNormalized patched).contains (M.map Char.toLower) = true :=
      List.elem_eq_true_of_mem hmem2
    unfold fixImportReq
    rw [hMne]
    simp only [Bool.false_eq_true, if_false]
    rw [hcont2]
    rfl

/-- Witness for C8: appending `requests` to `pytest==8.3.4` once, then
observing the second application is a no-op. -/
theorem fixImportReq_idempotent_witness :
    fixImportReq "requests".data "pytest==8.3.4\n".data =
      some "pytest==8.3.4\nrequests\n".data ∧
    fixImportReq "requests".data "pytest==8.3.4\nrequests\n".data = none := by
  refine ⟨by decide, ?_⟩
  exact fixImportReq_idempotent "requests".data "pytest==8.3.4\n".data
    "pytest==8.3.4\nrequests\n".data (by decide) (by decide) (by decide)

/-- Each iteration of the `fix_generator` loop past the unknown-path guard
appends exactly one record, carrying the failure's message and bug type,
with status applied, failed or skipped. -/
theorem processKnownPath_singleton (openaiModel : String) (env : FailureEnv)
    (failure : TestFailure) (fp : String) :
    ∃ r, processKnownPath openaiModel env failure fp = [r] ∧
      r.description = failure.error_message ∧
      r.bug_type = failure.bug_type ∧
      (r.status = "applied" ∨ r.status = "failed" ∨ r.status = "skipped") := by
  unfold processKnownPath
  repeat' split
  all_goals exact ⟨_, rfl, rfl, rfl, by simp [skippedRecord]⟩

/-- Each iteration of the `fix_generator` loop appends exactly one record,
in all branches. -/
theorem processFailure_singleton (openaiModel : String) (env : FailureEnv)
    (failure : TestFailure) :
    ∃ r, processFailure openaiModel env failure = [r] ∧
      r.description = failure.error_message ∧
      r.bug_type = failure.bug_type ∧
      (r.status = "applied" ∨ r.status = "failed" ∨ r.status = "skipped") := by
  unfold processFailure
  by_cases hunk : ((if failure.file_path == "" then "unknown" else failure.file_path)
      == "unknown"
      || (pyStrip (if failure.file_path == "" then "unknown"
          else failure.file_path).data).isEmpty) = true
  · rw [if_pos hunk]
    by_cases himp : (failure.bug_type == "IMPORT") = true
    · rw [if_pos himp]
      rcases hmg : env.manifestGuess with - | mfp
      · exact ⟨_, rfl, rfl, rfl, Or.inr (Or.inr rfl)⟩
      · exact processKnownPath_singleton openaiModel env failure mfp
    · rw [if_neg himp]
      exact ⟨_, rfl, rfl, rfl, Or.inr (Or.inr rfl)⟩
  · rw [if_neg hunk]
    exact processKnownPath_singleton openaiModel env failure _

/-- The loop produces one record per failure, in failure order. -/
theorem fixGenLoop_spec (openaiModel : String) (envFn : Nat → FailureEnv) :
    ∀ (failures : List TestFailure) (i : Nat),
      (fixGenLoop openaiModel envFn i failures).length = failures.length ∧
      ∀ j (hj : j < failures.length)
        (hj2 : j < (fixGenLoop openaiModel envFn i failures).length),
        ((fixGenLoop openaiModel envFn i failures)[j]).description =
          (failures[j]).error_message ∧
        ((fixGenLoop openaiModel envFn i failures)[j]).bug_type =
          (failures[j]).bug_type ∧
        (((fixGenLoop openaiModel envFn i failures)[j]).status = "applied" ∨
         ((fixGenLoop openaiModel envFn i failures)[j]).status = "failed" ∨
         ((fixGenLoop openaiModel envFn i failures)[j]).status = "skipped") := by
  intro failures
  induction failures with
  | nil => intro i; exact ⟨rfl, fun j hj => absurd hj (by simp)⟩
  | cons f rest ih =>
      intro i
      obtain ⟨r, hr, hdesc, hbug, hstat⟩ :=
        processFailure_singleton openaiModel (envFn i) f
      have hloop : fixGenLoop openaiModel envFn i (f :: rest) =
          r :: fixGenLoop openaiModel envFn (i + 1) rest := by
        rw [fixGenLoop, hr, List.singleton_append]
      obtain ⟨ihlen, ihget⟩ := ih (i + 1)
      constructor
      · rw [hloop]
        simp [ihlen]
      · intro j hj hj2
        rw [List.getElem_of_eq hloop hj2]
        cases j with
        | zero => simpa using ⟨hdesc, hbug, hstat⟩
        | succ j =>
            have hj1 : j < rest.length := by simpa using hj
            have hj2b : j < (fixGenLoop openaiModel envFn (i + 1) rest).length := by
              have hx := hj2
              rw [hloop] at hx
              simpa using hx
            simpa using ihget j hj1 hj2b

/-- C9: for every non-empty failure list, `fix_generator` appends exactly
one `FixRecord` per failure — including failures it could not patch, which
get status failed or skipped — and the appended records are in the order of
the Analyzer's failures (record `i` carries failure `i`'s error message and
bug type). -/
theorem fixGenerator_one_record_per_failure (openaiModel : String)
    (envFn : Nat → FailureEnv) (existingFixes : List FixRecord)
    (failures : List TestFailure) (hne : failures ≠ []) :
    (fixGenerator openaiModel envFn existingFixes failures).length =
      existingFixes.length + failures.length ∧
    ∀ j (hj : j < failures.length)
      (hj2 : existingFixes.length + j <
        (fixGenerator openaiModel envFn existingFixes failures).length),
      ((fixGenerator openaiModel envFn existingFixes failures)[existingFixes.length + j]).description =
        (failures[j]).error_message ∧
      ((fixGenerator openaiModel envFn existingFixes failures)[existingFixes.length + j]).bug_type =
        (failures[j]).bug_type ∧
      (((fixGenerator openaiModel envFn existingFixes failures)[existingFixes.length + j]).status = "applied" ∨
       ((fixGenerator openaiModel envFn existingFixes failures)[existingFixes.length + j]).status = "failed" ∨
       ((fixGenerator openaiModel envFn existingFixes failures)[existingFixes.length + j]).status = "skipped") := by
  have hgen : fixGenerator openaiModel envFn existingFixes failures =
      existingFixes ++ fixGenLoop openaiModel envFn 0 failures := by
    unfold fixGenerator
    rw [if_neg (by simpa [List.isEmpty_iff] using hne)]
  obtain ⟨hlen, hget⟩ := fixGenLoop_spec openaiModel envFn failures 0
  constructor
  · rw [hgen]
    simp [hlen]
  · intro j hj hj2
    have hj3 : j < (fixGenLoop openaiModel envFn 0 failures).length := by
      rw [hlen]; exact hj
    have hswap : (fixGenerator openaiModel envFn existingFixes failures)[existingFixes.length + j] =
        (fixGenLoop openaiModel envFn 0 failures)[j] := by
      rw [List.getElem_of_eq hgen hj2, List.getElem_append_right (by omega)]
      simp
    rw [hswap]
    exact hget j hj hj3

/-- Witness for C9: two failures (one rule-fixable, one with an unknown
path) produce exactly two records, in failure order. -/
theorem fixGenerator_one_record_per_failure_witness :
    (fixGenerator "" (fun _ => witnessEnv) [] witnessFailures).length =
      ([] : List FixRecord).length + witnessFailures.length ∧
    ((fixGenerator "" (fun _ => witnessEnv) [] witnessFailures).get
        ⟨0, by decide⟩).description =
      ((witnessFailures.get ⟨0, by decide⟩)).error_message ∧
    ((fixGenerator "" (fun _ => witnessEnv) [] witnessFailures).get
        ⟨1, by decide⟩).description =
      ((witnessFailures.get ⟨1, by decide⟩)).error_message := by
  obtain ⟨h1, h2⟩ := fixGenerator_one_record_per_failure "" (fun _ => witnessEnv)
    [] witnessFailures (by decide)
  refine ⟨h1, ?_, ?_⟩
  · have h := h2 0 (by decide) (by rw [h1]; decide)
    simpa using h.1
  · have h := h2 1 (by decide) (by rw [h1]; decide)
    simpa using h.1

end Zeus
